import Mathlib

/-!
Verification development for the hass-mqtt-weather-sensor repository
(src/index.js). The program reads environment configuration, validates it,
connects to an MQTT broker, and on connect runs a fetch-retry-publish cycle:
it tries weather stations in order with a bounded per-station retry budget,
and on the first successful observation publishes one retained config message
and one retained state message per present metric, in a fixed schema order.

The definitions below are a shallow embedding of index.js.  Machine-level
concerns (actual network I/O, timers, the axios/mqtt libraries) are modelled
at their interface boundary: the weather fetch is an oracle
`fetch : stationId -> attempt -> Option Obs`, the broker is a list of emitted
publish messages, and process exits are explicit outcome values.
-/

namespace WeatherSensor

/- ===================== JS-flavoured primitives ===================== -/

/-- Truthiness of a possibly-absent environment string, as JavaScript sees it
in `if (!SENSOR_NAME || ...)` (index.js line 21): an unset variable and the
empty string are both falsy. -/
def jsTruthy : Option String → Bool
  | none => false
  | some s => s != ""

/-- Numeric value of a list of decimal digit characters. -/
def digitsVal (cs : List Char) : Nat :=
  cs.foldl (fun a c => 10 * a + (c.toNat - Char.toNat (Char.ofNat 48))) 0

/-- Core of the decimal integer scan: longest digit prefix, none when empty. -/
def digitScan (cs : List Char) : Option Nat :=
  let ds := cs.takeWhile Char.isDigit
  if ds = [] then none else some (digitsVal ds)

/-- Modelled from the spec: the JavaScript builtin parseInt(s, 10) used at
index.js line 37 (`parseInt(RETRIES, 10)`), which is not part of the
repository.  Optional sign followed by the longest decimal digit prefix;
`none` models NaN (no digits to parse). -/
def jsParseInt (s : String) : Option Int :=
  match s.data with
  | Char.ofNat 45 :: rest => (digitScan rest).map (fun n => -(n : Int))
  | Char.ofNat 43 :: rest => (digitScan rest).map (fun n => (n : Int))
  | cs => (digitScan cs).map (fun n => (n : Int))

/-- Milliseconds per duration unit suffix, as the parse-duration library
resolves the suffixes named in the spec (ms, s, m, h, d). -/
def unitMs (u : String) : Option Nat :=
  if u = "ms" then some 1
  else if u = "s" then some 1000
  else if u = "m" then some 60000
  else if u = "h" then some 3600000
  else if u = "d" then some 86400000
  else none

/-- Modelled from the spec: the external parse-duration library applied to
EXEC_EVERY (index.js line 51), which is not part of the repository.  The spec
names formats like "5s", "10m", "1h"; this model parses one number-with-unit
token and returns the duration in milliseconds, `none` (the library returns
null) for the empty string or an unrecognised form.  Multi-token forms such
as "2m30s" are not needed by any claim and are not modelled. -/
def parseDurationModel (s : String) : Option Int :=
  let ds := s.data.takeWhile Char.isDigit
  let us := s.data.dropWhile Char.isDigit
  if ds = [] then none
  else
    match unitMs (String.mk us) with
    | none => none
    | some u => some ((digitsVal ds : Int) * (u : Int))

/- ===================== Configuration and startup ===================== -/

/-- The environment variables index.js destructures (lines 7-19) that the
startup checks and the core pipeline read.  `none` models an unset variable.
(The broker client id, TLS flag and credentials are passed through to the
mqtt library untouched and play no part in any claim.) -/
structure Env where
  sensorName : Option String
  apiKey : Option String
  stationId : Option String
  retriesVar : Option String
  mqttHost : Option String
  mqttPort : Option String
  execEvery : Option String
deriving DecidableEq

/-- Destructuring default of line 18: EXEC_EVERY = '1m' applies only when the
variable is unset (JS defaults replace undefined, not the empty string). -/
def execEveryOf (env : Env) : String :=
  env.execEvery.getD "1m"

/-- Destructuring default of line 11: RETRIES = 5 when unset. -/
def retriesStrOf (env : Env) : String :=
  env.retriesVar.getD "5"

/-- A character the MQTT topic check rejects: plus, hash, or NUL
(the regex at index.js line 28). -/
def isReservedTopicChar (c : Char) : Bool :=
  c == Char.ofNat 43 || c == Char.ofNat 35 || c == Char.ofNat 0

/-- index.js lines 26-29: a valid topic string is non-empty and has no
reserved character (the typeof check always holds for a string input). -/
def isValidMqttTopic (str : String) : Bool :=
  decide (0 < str.length) && !(str.data.any isReservedTopicChar)

/-- The required-variable check of index.js line 21: SENSOR_NAME, API_KEY,
STATION_ID, MQTT_HOST and MQTT_PORT must all be truthy. -/
def requiredPresent (env : Env) : Bool :=
  jsTruthy env.sensorName && jsTruthy env.apiKey && jsTruthy env.stationId &&
    jsTruthy env.mqttHost && jsTruthy env.mqttPort

/-- What the pre-flight part of index.js (lines 21-46) does before the broker
connection is opened: exit with a code, or proceed to mqtt.connect.  The
`exitCode` constructor means the process terminated before any network or
broker activity. -/
inductive StartupOutcome where
  | exitCode (code : Nat)
  | proceedToConnect
deriving DecidableEq

/-- index.js lines 21-46 in order: the missing-variable check (exit 2), then
the SENSOR_NAME topic check (exit 4), then mqtt.connect is reached.  No check
reads RETRIES or EXEC_EVERY here. -/
def startup (env : Env) : StartupOutcome :=
  if !(requiredPresent env) then StartupOutcome.exitCode 2
  else if !(isValidMqttTopic (env.sensorName.getD "")) then StartupOutcome.exitCode 4
  else StartupOutcome.proceedToConnect

/- ===================== Scheduler: the connect handler ===================== -/

/-- What the connect handler (index.js lines 48-63) decides to do.
`exitBeforeFetch` is a process.exit before any call to fetchAndPublish;
`timerMode` runs a cycle immediately and arms setInterval with the parsed
interval; `oneShotMode` runs exactly one cycle and exits 7 if it fails. -/
inductive ConnectAction where
  | exitBeforeFetch (code : Nat)
  | timerMode (intervalMs : Int)
  | oneShotMode
deriving DecidableEq

/-- index.js lines 50-62: `if (EXEC_EVERY)` tests JS string truthiness, so the
non-empty case parses the duration (`!interval || interval < 1` exits 3, which
for an integral result is exactly `interval < 1` since a parse failure is
none) and otherwise arms the timer; the empty case runs one-shot. -/
def connectHandler (execEvery : String) (parse : String → Option Int) : ConnectAction :=
  if execEvery != "" then
    match parse execEvery with
    | none => ConnectAction.exitBeforeFetch 3
    | some interval =>
        if interval < 1 then ConnectAction.exitBeforeFetch 3
        else ConnectAction.timerMode interval
  else ConnectAction.oneShotMode

/- ===================== Observations and sensor descriptors ===================== -/

variable {V : Type}

/-- The nested metric group of an observation (index.js lines 168-179 name its
ten fields).  `none` models a field that is null or absent; the value type V
is abstract (the JS values are numbers the program never inspects). -/
structure Metric (V : Type) where
  temp : Option V
  heatIndex : Option V
  dewpt : Option V
  windChill : Option V
  windSpeed : Option V
  windGust : Option V
  pressure : Option V
  precipRate : Option V
  precipTotal : Option V
  elev : Option V
deriving DecidableEq

/-- An observation as publishToMqtt reads it: four scalar top-level fields and
the optional metric group (`none` also covers a non-object metric, line 167). -/
structure Obs (V : Type) where
  obsTimeUtc : Option V
  solarRadiation : Option V
  winddir : Option V
  humidity : Option V
  metric : Option (Metric V)
deriving DecidableEq

/-- One element of the `sensors` array built at index.js lines 134-190: key,
display name, optional device class, optional unit, and the (possibly absent)
value.  The dead `state_transform` field of the first entry is never read by
the program and is not modelled. -/
structure Sensor (V : Type) where
  key : String
  name : String
  device_class : Option String
  unit : Option String
  value : Option V
deriving DecidableEq

/-- The four unconditionally constructed entries of the sensors array
(index.js lines 134-164); their value field carries the raw, possibly absent,
observation field. -/
def baseSensors (obs : Obs V) : List (Sensor V) :=
  [⟨"obsTimeUtc", "Observation Time", none, none, obs.obsTimeUtc⟩,
   ⟨"solarRadiation", "Solar Radiation", none, some "W/m²", obs.solarRadiation⟩,
   ⟨"winddir", "Wind Direction", none, some "°", obs.winddir⟩,
   ⟨"humidity", "Humidity", some "humidity", some "%", obs.humidity⟩]

/-- The conditional push of one metric entry (index.js lines 180-189): a
sensor is constructed only when the field is neither undefined nor null. -/
def optEntry (k n : String) (dc u : Option String) (v : Option V) : List (Sensor V) :=
  match v with
  | none => []
  | some x => [⟨k, n, dc, u, some x⟩]

/-- The metric entries in the insertion order of the metricMap object literal
(index.js lines 168-179), which Object.entries preserves. -/
def metricSensors (m : Metric V) : List (Sensor V) :=
  optEntry "temp" "Temperature" (some "temperature") (some "°C") m.temp ++
  optEntry "heatIndex" "Heat Index" (some "temperature") (some "°C") m.heatIndex ++
  optEntry "dewpt" "Dew Point" (some "temperature") (some "°C") m.dewpt ++
  optEntry "windChill" "Wind Chill" (some "temperature") (some "°C") m.windChill ++
  optEntry "windSpeed" "Wind Speed" (some "wind_speed") (some "km/h") m.windSpeed ++
  optEntry "windGust" "Wind Gust" (some "wind_speed") (some "km/h") m.windGust ++
  optEntry "pressure" "Pressure" (some "pressure") (some "hPa") m.pressure ++
  optEntry "precipRate" "Precipitation Rate" none (some "mm/h") m.precipRate ++
  optEntry "precipTotal" "Precipitation Total" none (some "mm") m.precipTotal ++
  optEntry "elev" "Elevation" none (some "m") m.elev

/-- The full sensors array as built at index.js lines 134-191: the four base
entries, then (when the metric group is an object) the present metric
entries. -/
def sensorsOf (obs : Obs V) : List (Sensor V) :=
  baseSensors obs ++
    (match obs.metric with
     | none => []
     | some m => metricSensors m)

/-- The descriptors the publish loop actually processes: line 194 skips every
sensor whose value is undefined or null, so the effective descriptor sequence
of a cycle is the sensors array restricted to present values. -/
def descriptors (obs : Obs V) : List (Sensor V) :=
  (sensorsOf obs).filter (fun s => s.value.isSome)

/- ===================== Discovery publisher ===================== -/

/-- The shared device block (index.js lines 127-131). -/
structure Device where
  identifiers : List String
  name : String
  manufacturer : String
deriving DecidableEq

/-- The device block built once per cycle for the configured sensor-set
name. -/
def deviceFor (sensorSetName : String) : Device :=
  ⟨[sensorSetName], "Weather Station " ++ sensorSetName, "Weather.com"⟩

/-- The discovery config payload (index.js lines 197-204).  device_class and
unit_of_measurement are optional members, added only when the descriptor
carries a truthy value. -/
structure ConfigPayload where
  name : String
  state_topic : String
  unique_id : String
  device : Device
  device_class : Option String
  unit_of_measurement : Option String
deriving DecidableEq

/-- Body of a broker message: the JSON discovery config, or the plain
stringified state value. -/
inductive Payload where
  | config (body : ConfigPayload)
  | state (body : String)
deriving DecidableEq

/-- One broker publish as issued by client.publish: topic, body and the
retain flag. -/
structure Publish where
  topic : String
  payload : Payload
  retain : Bool
deriving DecidableEq

/-- The common topic root (index.js line 126). -/
def baseTopic (sensorSetName : String) : String :=
  "homeassistant/sensor/" ++ sensorSetName

/-- Discovery config topic of one sensor key (index.js line 195). -/
def configTopicFor (sensorSetName k : String) : String :=
  baseTopic sensorSetName ++ "/" ++ k ++ "/config"

/-- State topic of one sensor key (index.js line 196). -/
def stateTopicFor (sensorSetName k : String) : String :=
  baseTopic sensorSetName ++ "/" ++ k ++ "/state"

/-- The conditional member adds of index.js lines 203-204: `if (sensor.x)`
keeps a string member only when it is present and non-empty (JS truthiness). -/
def truthyMember : Option String → Option String
  | none => none
  | some s => if s = "" then none else some s

/-- The config payload built for one descriptor (index.js lines 197-204). -/
def configPayloadFor (sensorSetName : String) (s : Sensor V) : ConfigPayload :=
  ⟨"Weather " ++ sensorSetName ++ " " ++ s.name,
   stateTopicFor sensorSetName s.key,
   sensorSetName ++ "_" ++ s.key,
   deviceFor sensorSetName,
   truthyMember s.device_class,
   truthyMember s.unit⟩

/-- One iteration of the publish loop (index.js lines 193-207): a sensor with
an absent value is skipped (`continue`, line 194); otherwise the retained
config message is published and then the retained state message whose body is
the stringified value (`String(sensor.value)`, modelled by the ambient
stringification function vstr). -/
def msgsFor (sensorSetName : String) (vstr : V → String) (s : Sensor V) : List Publish :=
  match s.value with
  | none => []
  | some v =>
      [⟨configTopicFor sensorSetName s.key,
        Payload.config (configPayloadFor sensorSetName s), true⟩,
       ⟨stateTopicFor sensorSetName s.key, Payload.state (vstr v), true⟩]

/-- publishToMqtt (index.js lines 125-209): build the sensors array from the
observation and run the publish loop over it, concatenating the messages each
iteration sends to the broker, in order. -/
def publishToMqtt (sensorSetName : String) (vstr : V → String) (obs : Obs V) : List Publish :=
  (sensorsOf obs).flatMap (msgsFor sensorSetName vstr)

/- ===================== Station fallback retrier ===================== -/

/-- The while loop guard `attempt < retries` (index.js line 104), where the
parsed RETRIES value is an Option Int (`none` models NaN, every comparison
with which is false in JS). -/
def whileGuard (attempt : Nat) (retriesNum : Option Int) : Bool :=
  match retriesNum with
  | none => false
  | some n => decide ((attempt : Int) < n)

/-- Number of loop iterations the guard admits: zero for NaN, and the
non-negative part of the parsed value otherwise (the attempt counter starts
at 0 and increases by 1). -/
def attemptsAllowed : Option Int → Nat
  | none => 0
  | some n => n.toNat

/-- The inner while loop of fetchAndPublish for one station (index.js lines
103-117), with the remaining attempt budget as fuel and the current attempt
number explicit.  Each iteration calls the weather fetch once; `none` covers
both a thrown error and a response without observations (neither returns, the
attempt counter advances).  The result pairs the trace of fetch calls made,
as (stationId, attempt) in order, with the first observation obtained. -/
def tryStation (fetch : String → Nat → Option (Obs V)) (st : String) :
    Nat → Nat → List (String × Nat) × Option (Obs V)
  | 0, _ => ([], none)
  | fuel + 1, a =>
      match fetch st a with
      | some o => ([(st, a)], some o)
      | none =>
          let r := tryStation fetch st fuel (a + 1)
          ((st, a) :: r.1, r.2)

/-- The station loop of fetchAndPublish (index.js lines 102-119): stations in
configured order, the full per-station loop for each; the first success
returns immediately, an exhausted station falls through to the next. -/
def fetchAndPublishLoop (fetch : String → Nat → Option (Obs V)) :
    List String → Nat → List (String × Nat) × Option (Obs V)
  | [], _ => ([], none)
  | st :: rest, fuel =>
      match tryStation fetch st fuel 0 with
      | (tr, some o) => (tr, some o)
      | (tr, none) =>
          let r := fetchAndPublishLoop fetch rest fuel
          (tr ++ r.1, r.2)

/-- How one whole cycle ends: publishToMqtt ran and the cycle returned true,
or every station was exhausted and the process exits with code 7 (index.js
lines 120-121). -/
inductive CycleOutcome where
  | published
  | exitCode (code : Nat)
deriving DecidableEq

/-- fetchAndPublish (index.js lines 101-123): the station loop, then on
success the MQTT publishes for the observation (line 109), on total
exhaustion no publish and exit 7.  The result is (fetch-call trace, broker
messages, outcome). -/
def fetchAndPublish (sensorSetName : String) (vstr : V → String)
    (fetch : String → Nat → Option (Obs V)) (stations : List String) (fuel : Nat) :
    List (String × Nat) × List Publish × CycleOutcome :=
  match fetchAndPublishLoop fetch stations fuel with
  | (tr, some o) => (tr, publishToMqtt sensorSetName vstr o, CycleOutcome.published)
  | (tr, none) => (tr, [], CycleOutcome.exitCode 7)

/-- The trace block of n consecutive attempts at one station starting at
attempt number a0 (what one run of the while loop that never succeeds
produces). -/
def attemptBlock (st : String) (a0 n : Nat) : List (String × Nat) :=
  (List.range n).map (fun b => (st, a0 + b))

/- ===================== Retrier lemmas ===================== -/

lemma whileGuard_eq (a : Nat) (r : Option Int) :
    whileGuard a r = decide (a < attemptsAllowed r) := by
  cases r with
  | none => simp [whileGuard, attemptsAllowed]
  | some n =>
      simp only [whileGuard, attemptsAllowed]
      rw [decide_eq_decide]
      exact (Int.lt_toNat).symm

lemma attemptBlock_zero (st : String) (a0 : Nat) : attemptBlock st a0 0 = [] := rfl

lemma attemptBlock_succ (st : String) (a0 n : Nat) :
    attemptBlock st a0 (n + 1) = (st, a0) :: attemptBlock st (a0 + 1) n := by
  unfold attemptBlock
  rw [List.range_succ_eq_map, List.map_cons, List.map_map]
  have hf : ((fun b => (st, a0 + b)) ∘ Nat.succ) = (fun b => (st, a0 + 1 + b)) := by
    funext b
    simp only [Function.comp]
    have e : a0 + Nat.succ b = a0 + 1 + b := by omega
    rw [e]
  rw [hf]
  simp

lemma tryStation_all_fail (fetch : String → Nat → Option (Obs V)) (st : String) :
    ∀ fuel a0, (∀ i, i < fuel → fetch st (a0 + i) = none) →
      tryStation fetch st fuel a0 = (attemptBlock st a0 fuel, none) := by
  intro fuel
  induction fuel with
  | zero => intro a0 _; rfl
  | succ n ih =>
      intro a0 h
      have h0 : fetch st a0 = none := by simpa using h 0 (Nat.succ_pos n)
      have hrec := ih (a0 + 1) (fun i hi => by
        have hfi := h (i + 1) (Nat.succ_lt_succ hi)
        have e : a0 + (i + 1) = a0 + 1 + i := by omega
        rwa [e] at hfi)
      simp [tryStation, h0, hrec, attemptBlock_succ]

lemma tryStation_first_success (fetch : String → Nat → Option (Obs V)) (st : String) :
    ∀ fuel a0 j o, j < fuel → fetch st (a0 + j) = some o →
      (∀ i, i < j → fetch st (a0 + i) = none) →
      tryStation fetch st fuel a0 = (attemptBlock st a0 (j + 1), some o) := by
  intro fuel
  induction fuel with
  | zero => intro a0 j o hj; omega
  | succ n ih =>
      intro a0 j o hj ho hfail
      cases j with
      | zero =>
          have h0 : fetch st a0 = some o := by simpa using ho
          simp [tryStation, h0, attemptBlock_succ, attemptBlock_zero]
      | succ j =>
          have h0 : fetch st a0 = none := by simpa using hfail 0 (Nat.succ_pos j)
          have ho2 : fetch st (a0 + 1 + j) = some o := by
            have e : a0 + (j + 1) = a0 + 1 + j := by omega
            rwa [e] at ho
          have hfail2 : ∀ i, i < j → fetch st (a0 + 1 + i) = none := by
            intro i hi
            have hfi := hfail (i + 1) (Nat.succ_lt_succ hi)
            have e : a0 + (i + 1) = a0 + 1 + i := by omega
            rwa [e] at hfi
          have hrec := ih (a0 + 1) j o (Nat.lt_of_succ_lt_succ hj) ho2 hfail2
          simp [tryStation, h0, hrec, attemptBlock_succ]

lemma loop_nil (fetch : String → Nat → Option (Obs V)) (fuel : Nat) :
    fetchAndPublishLoop fetch [] fuel = ([], none) := rfl

lemma loop_cons_success {fetch : String → Nat → Option (Obs V)} {st : String}
    {fuel : Nat} {tr : List (String × Nat)} {o : Obs V} (rest : List String)
    (h : tryStation fetch st fuel 0 = (tr, some o)) :
    fetchAndPublishLoop fetch (st :: rest) fuel = (tr, some o) := by
  simp [fetchAndPublishLoop, h]

lemma loop_cons_exhausted {fetch : String → Nat → Option (Obs V)} {st : String}
    {fuel : Nat} {tr : List (String × Nat)} (rest : List String)
    (h : tryStation fetch st fuel 0 = (tr, none)) :
    fetchAndPublishLoop fetch (st :: rest) fuel =
      (tr ++ (fetchAndPublishLoop fetch rest fuel).1,
       (fetchAndPublishLoop fetch rest fuel).2) := by
  simp [fetchAndPublishLoop, h]

lemma loop_all_fail (fetch : String → Nat → Option (Obs V)) (stations : List String)
    (fuel : Nat) (h : ∀ s ∈ stations, ∀ i, i < fuel → fetch s i = none) :
    fetchAndPublishLoop fetch stations fuel =
      (stations.flatMap (fun s => attemptBlock s 0 fuel), none) := by
  induction stations with
  | nil => simp [loop_nil]
  | cons st rest ih =>
      have hst : tryStation fetch st fuel 0 = (attemptBlock st 0 fuel, none) :=
        tryStation_all_fail fetch st fuel 0
          (fun i hi => by simpa using h st (by simp) i hi)
      rw [loop_cons_exhausted rest hst, ih (fun s hs i hi => h s (by simp [hs]) i hi)]
      simp

lemma firstSuccess_cases (fetch : String → Nat → Option (Obs V)) (st : String) (fuel : Nat) :
    (∀ i, i < fuel → fetch st i = none) ∨
      (∃ j, j < fuel ∧ ∃ o, fetch st j = some o ∧ ∀ i, i < j → fetch st i = none) := by
  by_cases hex : ∃ j, (fetch st j).isSome = true ∧ j < fuel
  · right
    have hfind := Nat.find_spec hex
    refine ⟨Nat.find hex, hfind.2, ?_⟩
    obtain ⟨o, ho⟩ := Option.isSome_iff_exists.1 hfind.1
    refine ⟨o, ho, fun i hi => ?_⟩
    have hni := Nat.find_min hex hi
    have hif : i < fuel := lt_trans hi hfind.2
    by_contra hne
    exact hni ⟨by
      cases hfi : fetch st i with
      | none => exact absurd hfi hne
      | some x => simp [hfi], hif⟩
  · left
    intro i hi
    cases hfi : fetch st i with
    | none => rfl
    | some x => exact absurd ⟨by simp [hfi], hi⟩ (fun hc => hex ⟨i, hc⟩)

lemma loop_fuel_zero (fetch : String → Nat → Option (Obs V)) (stations : List String) :
    fetchAndPublishLoop fetch stations 0 = ([], none) := by
  induction stations with
  | nil => rfl
  | cons st rest ih =>
      rw [loop_cons_exhausted rest (rfl : tryStation fetch st 0 0 = ([], none)), ih]
      simp

/- ===================== Claims on the retrier ===================== -/

/-- C1: for every station list and per-station budget, the retrier
(the station loop of fetchAndPublish) tries stations in the exact configured
order, calls the weather fetch at most `retries` times per station, exhausts
the full budget of each earlier station before attempting the next, and on
the first successful fetch returns immediately with that observation, with no
further calls to that or any later station: the call trace is the full
`retries`-attempt block of every station before the first succeeding one,
then that station's attempts up to and including its first success, and the
returned observation is the one that success yielded; when no success exists
the trace is every station's full block and the result is none. -/
theorem c1_retrier_order_budget_short_circuit
    (fetch : String → Nat → Option (Obs V)) (stations : List String) (retries : Nat) :
    (∃ pre st rest a o,
        stations = pre ++ st :: rest ∧
        a < retries ∧
        fetch st a = some o ∧
        (∀ b, b < a → fetch st b = none) ∧
        (∀ s ∈ pre, ∀ b, b < retries → fetch s b = none) ∧
        fetchAndPublishLoop fetch stations retries =
          (pre.flatMap (fun s => attemptBlock s 0 retries) ++ attemptBlock st 0 (a + 1),
           some o)) ∨
    ((∀ s ∈ stations, ∀ b, b < retries → fetch s b = none) ∧
     fetchAndPublishLoop fetch stations retries =
       (stations.flatMap (fun s => attemptBlock s 0 retries), none)) := by
  induction stations with
  | nil => exact Or.inr ⟨by simp, by simp [loop_nil]⟩
  | cons st rest ih =>
      rcases firstSuccess_cases fetch st retries with hfail | ⟨j, hj, o, ho, hmin⟩
      · have hst : tryStation fetch st retries 0 = (attemptBlock st 0 retries, none) :=
          tryStation_all_fail fetch st retries 0 (fun i hi => by simpa using hfail i hi)
        rcases ih with ⟨pre, st2, rest2, a, o, hsplit, ha, ho2, hbef, hpre, heq⟩ | ⟨hall, heq⟩
        · left
          refine ⟨st :: pre, st2, rest2, a, o, by simp [hsplit], ha, ho2, hbef, ?_, ?_⟩
          · intro s hs b hb
            rcases List.mem_cons.1 hs with rfl | hs
            · exact hfail b hb
            · exact hpre s hs b hb
          · rw [loop_cons_exhausted rest hst, heq]
            simp [List.flatMap_cons, List.append_assoc]
        · right
          refine ⟨?_, ?_⟩
          · intro s hs b hb
            rcases List.mem_cons.1 hs with rfl | hs
            · exact hfail b hb
            · exact hall s hs b hb
          · rw [loop_cons_exhausted rest hst, heq]
            simp [List.flatMap_cons]
      · left
        have hst : tryStation fetch st retries 0 = (attemptBlock st 0 (j + 1), some o) :=
          tryStation_first_success fetch st retries 0 j o hj (by simpa using ho)
            (fun i hi => by simpa using hmin i hi)
        refine ⟨[], st, rest, j, o, by simp, hj, ho, hmin, by simp, ?_⟩
        rw [loop_cons_success rest hst]
        simp

/-- C4: if every configured station exhausts its retry budget with no
successful fetch, the cycle ends in process exit code 7 and the broker
message list is empty: publishToMqtt is never reached on that path. -/
theorem c4_all_exhausted_exit7_no_publish
    (sensorSetName : String) (vstr : V → String) (fetch : String → Nat → Option (Obs V))
    (stations : List String) (retries : Nat)
    (h : ∀ s ∈ stations, ∀ a, a < retries → fetch s a = none) :
    fetchAndPublish sensorSetName vstr fetch stations retries =
      (stations.flatMap (fun s => attemptBlock s 0 retries), [], CycleOutcome.exitCode 7) := by
  unfold fetchAndPublish
  rw [loop_all_fail fetch stations retries h]

/-- Witness for C4 at a concrete input: two stations that always fail under a
budget of 2 yield four fetch calls, no broker message, and exit code 7. -/
theorem c4_witness :
    (∀ s ∈ (["A", "B"] : List String), ∀ a, a < 2 →
        (fun (_ : String) (_ : Nat) => (none : Option (Obs String))) s a = none) ∧
    fetchAndPublish "w" (fun v => v)
        (fun (_ : String) (_ : Nat) => (none : Option (Obs String))) ["A", "B"] 2 =
      ((["A", "B"] : List String).flatMap (fun s => attemptBlock s 0 2), [],
        CycleOutcome.exitCode 7) :=
  ⟨by decide,
   c4_all_exhausted_exit7_no_publish "w" (fun v => v)
     (fun _ _ => none) ["A", "B"] 2 (by decide)⟩

/-- C10: when the configured RETRIES string parses to NaN (non-numeric), zero
or a negative number, the while guard never admits an iteration, the cycle
performs zero fetch calls (empty trace), publishes nothing and exits with
code 7; and startup validation is unaffected by the RETRIES value, so no
configuration error is reported for it. -/
theorem c10_nonpositive_retries_exit7_without_fetch
    (retriesStr : String)
    (h : jsParseInt retriesStr = none ∨ ∃ n, jsParseInt retriesStr = some n ∧ n ≤ 0)
    (sensorSetName : String) (vstr : V → String)
    (fetch : String → Nat → Option (Obs V)) (stations : List String)
    (sn ak si mh mp ee : Option String) :
    (∀ a, whileGuard a (jsParseInt retriesStr) = false) ∧
    fetchAndPublish sensorSetName vstr fetch stations
        (attemptsAllowed (jsParseInt retriesStr)) = ([], [], CycleOutcome.exitCode 7) ∧
    startup ⟨sn, ak, si, some retriesStr, mh, mp, ee⟩ =
      startup ⟨sn, ak, si, none, mh, mp, ee⟩ := by
  have hz : attemptsAllowed (jsParseInt retriesStr) = 0 := by
    rcases h with h | ⟨n, hn, hle⟩
    · simp [h, attemptsAllowed]
    · simp [hn, attemptsAllowed, Int.toNat_of_nonpos hle]
  refine ⟨?_, ?_, rfl⟩
  · intro a
    rw [whileGuard_eq, hz]
    simp
  · unfold fetchAndPublish
    rw [hz, loop_fuel_zero]

/-- Witness for C10 at a concrete input: RETRIES "abc" parses to NaN, and even
with a fetch oracle that would succeed on the first call, the cycle makes no
call, publishes nothing and exits 7, while startup is unchanged. -/
theorem c10_witness :
    (jsParseInt "abc" = none ∨ ∃ n, jsParseInt "abc" = some n ∧ n ≤ 0) ∧
    ((∀ a, whileGuard a (jsParseInt "abc") = false) ∧
     fetchAndPublish "w" (fun v => v)
        (fun (_ : String) (_ : Nat) =>
          (some ⟨some "now", none, none, none, none⟩ : Option (Obs String)))
        ["A", "B"] (attemptsAllowed (jsParseInt "abc")) =
       ([], [], CycleOutcome.exitCode 7) ∧
     startup ⟨some "w", some "k", some "A,B", some "abc", some "h", some "1883", none⟩ =
       startup ⟨some "w", some "k", some "A,B", none, some "h", some "1883", none⟩) :=
  ⟨Or.inl rfl,
   c10_nonpositive_retries_exit7_without_fetch "abc" (Or.inl rfl) "w" (fun v => v)
     (fun _ _ => some ⟨some "now", none, none, none, none⟩) ["A", "B"]
     (some "w") (some "k") (some "A,B") (some "h") (some "1883") none⟩

/- ===================== Mapper lemmas ===================== -/

lemma filter_optEntry (k n : String) (dc u : Option String) (v : Option V) :
    (optEntry k n dc u v).filter (fun s => s.value.isSome) = optEntry k n dc u v := by
  cases v <;> simp [optEntry]

lemma filter_metricSensors (m : Metric V) :
    (metricSensors m).filter (fun s => s.value.isSome) = metricSensors m := by
  simp [metricSensors, List.filter_append, filter_optEntry]

/-- The effective descriptor sequence of a cycle, field by field: every field
contributes its own optional singleton segment, independently of every other
field, in the fixed schema order. -/
lemma descriptors_closed_form (obs : Obs V) :
    descriptors obs =
      optEntry "obsTimeUtc" "Observation Time" none none obs.obsTimeUtc ++
      optEntry "solarRadiation" "Solar Radiation" none (some "W/m²") obs.solarRadiation ++
      optEntry "winddir" "Wind Direction" none (some "°") obs.winddir ++
      optEntry "humidity" "Humidity" (some "humidity") (some "%") obs.humidity ++
      (match obs.metric with
       | none => []
       | some m => metricSensors m) := by
  unfold descriptors sensorsOf
  rw [List.filter_append]
  have hbase : (baseSensors obs).filter (fun s => s.value.isSome) =
      optEntry "obsTimeUtc" "Observation Time" none none obs.obsTimeUtc ++
      optEntry "solarRadiation" "Solar Radiation" none (some "W/m²") obs.solarRadiation ++
      optEntry "winddir" "Wind Direction" none (some "°") obs.winddir ++
      optEntry "humidity" "Humidity" (some "humidity") (some "%") obs.humidity := by
    unfold baseSensors
    cases obs.obsTimeUtc <;> cases obs.solarRadiation <;> cases obs.winddir <;>
      cases obs.humidity <;> simp [optEntry, List.filter]
  rw [hbase]
  cases hm : obs.metric with
  | none => simp
  | some m => simp [filter_metricSensors, List.append_assoc]

lemma key_of_mem_optEntry {s : Sensor V} {k n : String} {dc u : Option String}
    {v : Option V} (h : s ∈ optEntry k n dc u v) :
    s.key = k ∧ ∃ x, v = some x ∧ s.value = some x := by
  cases v with
  | none => simp [optEntry] at h
  | some x =>
      simp [optEntry] at h
      subst h
      exact ⟨rfl, x, rfl, rfl⟩

lemma mem_metricSensors_key {s : Sensor V} {m : Metric V} (h : s ∈ metricSensors m) :
    s.key ∈ (["temp", "heatIndex", "dewpt", "windChill", "windSpeed", "windGust",
      "pressure", "precipRate", "precipTotal", "elev"] : List String) ∧
    (s.key = "pressure" → ∃ x, m.pressure = some x) := by
  unfold metricSensors at h
  simp only [List.mem_append, or_assoc] at h
  rcases h with h | h | h | h | h | h | h | h | h | h
  all_goals rcases key_of_mem_optEntry h with ⟨hk, hx⟩
  all_goals first
    | exact ⟨by simp [hk], fun he => by rw [hk] at he; exact absurd he (by decide)⟩
    | exact ⟨by simp [hk], fun _ => by
        obtain ⟨x, hvx, _⟩ := hx
        exact ⟨x, hvx⟩⟩

lemma mem_baseSensors_key {s : Sensor V} {obs : Obs V} (h : s ∈ baseSensors obs) :
    s.key ∈ (["obsTimeUtc", "solarRadiation", "winddir", "humidity"] : List String) := by
  simp [baseSensors] at h
  rcases h with rfl | rfl | rfl | rfl <;> simp

/- ===================== Topic string lemmas ===================== -/

lemma configTopicFor_inj {sensorSetName k1 k2 : String}
    (h : configTopicFor sensorSetName k1 = configTopicFor sensorSetName k2) : k1 = k2 := by
  unfold configTopicFor baseTopic at h
  have hd := congrArg String.data h
  simp only [String.data_append, List.append_assoc] at hd
  have h1 := List.append_cancel_left hd
  have h2 := List.append_cancel_left h1
  have h3 := List.append_cancel_left h2
  exact String.ext (List.append_cancel_right h3)

lemma stateTopicFor_inj {sensorSetName k1 k2 : String}
    (h : stateTopicFor sensorSetName k1 = stateTopicFor sensorSetName k2) : k1 = k2 := by
  unfold stateTopicFor baseTopic at h
  have hd := congrArg String.data h
  simp only [String.data_append, List.append_assoc] at hd
  have h1 := List.append_cancel_left hd
  have h2 := List.append_cancel_left h1
  have h3 := List.append_cancel_left h2
  exact String.ext (List.append_cancel_right h3)

lemma configTopicFor_ne_stateTopicFor (sensorSetName k1 k2 : String) :
    configTopicFor sensorSetName k1 ≠ stateTopicFor sensorSetName k2 := by
  intro h
  have hc : (configTopicFor sensorSetName k1).data.getLast? = some (Char.ofNat 103) := by
    unfold configTopicFor baseTopic
    rw [String.data_append, List.getLast?_append_of_ne_nil _ (by decide)]
    decide
  have hs : (stateTopicFor sensorSetName k2).data.getLast? = some (Char.ofNat 101) := by
    unfold stateTopicFor baseTopic
    rw [String.data_append, List.getLast?_append_of_ne_nil _ (by decide)]
    decide
  rw [h, hs] at hc
  exact absurd hc (by decide)

/-- Every broker message of a cycle comes from a sensor in the array whose
value is present, and its topic is that sensor's config or state topic. -/
lemma mem_publishToMqtt {p : Publish} {sensorSetName : String} {vstr : V → String}
    {obs : Obs V} (h : p ∈ publishToMqtt sensorSetName vstr obs) :
    ∃ s ∈ sensorsOf obs, ∃ v, s.value = some v ∧
      (p.topic = configTopicFor sensorSetName s.key ∨
        p.topic = stateTopicFor sensorSetName s.key) := by
  unfold publishToMqtt at h
  rcases List.mem_flatMap.1 h with ⟨s, hs, hp⟩
  refine ⟨s, hs, ?_⟩
  cases hv : s.value with
  | none => simp [msgsFor, hv] at hp
  | some v =>
      refine ⟨v, rfl, ?_⟩
      simp only [msgsFor, hv, List.mem_cons, List.mem_singleton] at hp
      rcases hp with hp | hp | hp
      · exact Or.inl (by rw [hp])
      · exact Or.inr (by rw [hp])
      · exact absurd hp (by simp)

lemma optEntry_none (k n : String) (dc u : Option String) :
    optEntry k n dc u (none : Option V) = [] := rfl

lemma flatMap_msgsFor_filter (sensorSetName : String) (vstr : V → String)
    (l : List (Sensor V)) :
    l.flatMap (msgsFor sensorSetName vstr) =
      (l.filter (fun s => s.value.isSome)).flatMap (msgsFor sensorSetName vstr) := by
  induction l with
  | nil => rfl
  | cons a l ih =>
      cases hv : a.value with
      | none => simp [List.flatMap_cons, List.filter_cons, hv, msgsFor, ih]
      | some v => simp [List.flatMap_cons, List.filter_cons, hv, ih]

lemma all_isSome_optEntry (k n : String) (dc u : Option String) (v : Option V) :
    (optEntry k n dc u v).all (fun s => s.value.isSome) = true := by
  cases v <;> simp [optEntry]

lemma all_isSome_metricSensors (m : Metric V) :
    (metricSensors m).all (fun s => s.value.isSome) = true := by
  simp [metricSensors, List.all_append, all_isSome_optEntry]

lemma map_key_optEntry_sublist (k n : String) (dc u : Option String) (v : Option V) :
    List.Sublist ((optEntry k n dc u v).map Sensor.key) [k] := by
  cases v with
  | none => exact List.nil_sublist [k]
  | some x => simp [optEntry]

lemma map_key_metricSensors_sublist (m : Metric V) :
    List.Sublist ((metricSensors m).map Sensor.key)
      ["temp", "heatIndex", "dewpt", "windChill", "windSpeed", "windGust",
       "pressure", "precipRate", "precipTotal", "elev"] := by
  unfold metricSensors
  rw [List.map_append, List.map_append, List.map_append, List.map_append,
    List.map_append, List.map_append, List.map_append, List.map_append,
    List.map_append]
  show List.Sublist _
    (((((((((["temp"] ++ ["heatIndex"]) ++ ["dewpt"]) ++ ["windChill"]) ++
      ["windSpeed"]) ++ ["windGust"]) ++ ["pressure"]) ++ ["precipRate"]) ++
      ["precipTotal"]) ++ ["elev"])
  exact ((((((((((map_key_optEntry_sublist _ _ _ _ _).append
    (map_key_optEntry_sublist _ _ _ _ _)).append
    (map_key_optEntry_sublist _ _ _ _ _)).append
    (map_key_optEntry_sublist _ _ _ _ _)).append
    (map_key_optEntry_sublist _ _ _ _ _)).append
    (map_key_optEntry_sublist _ _ _ _ _)).append
    (map_key_optEntry_sublist _ _ _ _ _)).append
    (map_key_optEntry_sublist _ _ _ _ _)).append
    (map_key_optEntry_sublist _ _ _ _ _)).append
    (map_key_optEntry_sublist _ _ _ _ _))

lemma map_key_metricCase_sublist (mo : Option (Metric V)) :
    List.Sublist
      ((match mo with
        | none => ([] : List (Sensor V))
        | some m => metricSensors m).map Sensor.key)
      ["temp", "heatIndex", "dewpt", "windChill", "windSpeed", "windGust",
       "pressure", "precipRate", "precipTotal", "elev"] := by
  cases mo with
  | none => exact List.nil_sublist _
  | some m => exact map_key_metricSensors_sublist m

/- ===================== Claims on the mapper and publisher ===================== -/

/-- C2: a field whose value is null or absent contributes nothing to the
cycle's descriptor sequence and does not affect any other field's
contribution: the sequence handed to the publisher splits into one optional
segment per field, each depending only on its own field; and for an
observation whose metric.pressure is null, no message of the cycle is
addressed to the pressure config or state topic while every other present
field keeps exactly its own segment. -/
theorem c2_null_field_skipped_no_cross_coupling
    (sensorSetName : String) (vstr : V → String) (obs : Obs V) (m : Metric V)
    (hm : obs.metric = some m) (hp : m.pressure = none) :
    descriptors obs =
      optEntry "obsTimeUtc" "Observation Time" none none obs.obsTimeUtc ++
      optEntry "solarRadiation" "Solar Radiation" none (some "W/m²") obs.solarRadiation ++
      optEntry "winddir" "Wind Direction" none (some "°") obs.winddir ++
      optEntry "humidity" "Humidity" (some "humidity") (some "%") obs.humidity ++
      (optEntry "temp" "Temperature" (some "temperature") (some "°C") m.temp ++
       optEntry "heatIndex" "Heat Index" (some "temperature") (some "°C") m.heatIndex ++
       optEntry "dewpt" "Dew Point" (some "temperature") (some "°C") m.dewpt ++
       optEntry "windChill" "Wind Chill" (some "temperature") (some "°C") m.windChill ++
       optEntry "windSpeed" "Wind Speed" (some "wind_speed") (some "km/h") m.windSpeed ++
       optEntry "windGust" "Wind Gust" (some "wind_speed") (some "km/h") m.windGust ++
       optEntry "precipRate" "Precipitation Rate" none (some "mm/h") m.precipRate ++
       optEntry "precipTotal" "Precipitation Total" none (some "mm") m.precipTotal ++
       optEntry "elev" "Elevation" none (some "m") m.elev) ∧
    (∀ p ∈ publishToMqtt sensorSetName vstr obs,
       p.topic ≠ configTopicFor sensorSetName "pressure" ∧
       p.topic ≠ stateTopicFor sensorSetName "pressure") := by
  constructor
  · simp only [descriptors_closed_form, hm, metricSensors, hp, optEntry_none]
    simp
  · intro p hpmem
    rcases mem_publishToMqtt hpmem with ⟨s, hs, v, hv, htopic⟩
    have hkey : s.key ≠ "pressure" := by
      simp only [sensorsOf, hm, List.mem_append] at hs
      rcases hs with hb | hmet
      · have hk4 := mem_baseSensors_key hb
        intro hk
        rw [hk] at hk4
        exact absurd hk4 (by decide)
      · rcases mem_metricSensors_key hmet with ⟨_, hpress⟩
        intro hk
        obtain ⟨x, hx⟩ := hpress hk
        rw [hp] at hx
        exact Option.noConfusion hx
    rcases htopic with ht | ht
    · refine ⟨?_, ?_⟩
      · rw [ht]
        intro he
        exact hkey (configTopicFor_inj he)
      · rw [ht]
        exact configTopicFor_ne_stateTopicFor sensorSetName s.key "pressure"
    · refine ⟨?_, ?_⟩
      · rw [ht]
        exact (configTopicFor_ne_stateTopicFor sensorSetName "pressure" s.key).symm
      · rw [ht]
        intro he
        exact hkey (stateTopicFor_inj he)

/-- C3: each sensor descriptor the publisher processes produces exactly two
retained broker messages, the config message first — on topic
homeassistant/sensor/set/key/config, carrying the display name, the
state-topic reference, the unique id set_key, the device block, and
device_class / unit_of_measurement exactly when truthy for that key — then
the state message on the matching state topic whose body is the stringified
value; every cycle message arises this way and every processed descriptor
has a present value. -/
theorem c3_publisher_two_retained_messages_config_first
    (sensorSetName : String) (vstr : V → String) (obs : Obs V) :
    publishToMqtt sensorSetName vstr obs =
      (descriptors obs).flatMap (fun s =>
        match s.value with
        | none => []
        | some v =>
            [⟨configTopicFor sensorSetName s.key,
              Payload.config
                ⟨"Weather " ++ sensorSetName ++ " " ++ s.name,
                 stateTopicFor sensorSetName s.key,
                 sensorSetName ++ "_" ++ s.key,
                 deviceFor sensorSetName,
                 truthyMember s.device_class,
                 truthyMember s.unit⟩, true⟩,
             ⟨stateTopicFor sensorSetName s.key, Payload.state (vstr v), true⟩]) ∧
    ∀ s ∈ descriptors obs, s.value.isSome = true := by
  constructor
  · unfold publishToMqtt
    rw [flatMap_msgsFor_filter sensorSetName vstr (sensorsOf obs)]
    show List.flatMap _ _ = List.flatMap _ _
    apply congrArg
    funext s
    cases hv : s.value <;> simp [msgsFor, hv, configPayloadFor]
  · intro s hs
    simpa using List.of_mem_filter hs

/-- C5: the mapper's descriptor keys always follow the fixed schema order
(observation time, solar radiation, wind direction, humidity, then the ten
metric fields in metricMap insertion order), and identical observations
produce identical descriptor sequences. -/
theorem c5_mapper_fixed_order_and_pure (obs obs2 : Obs V) (h : obs = obs2) :
    List.Sublist ((descriptors obs).map Sensor.key)
      ["obsTimeUtc", "solarRadiation", "winddir", "humidity", "temp", "heatIndex",
       "dewpt", "windChill", "windSpeed", "windGust", "pressure", "precipRate",
       "precipTotal", "elev"] ∧
    descriptors obs = descriptors obs2 := by
  subst h
  refine ⟨?_, rfl⟩
  rw [descriptors_closed_form]
  rw [List.map_append, List.map_append, List.map_append, List.map_append]
  show List.Sublist _
    ((((["obsTimeUtc"] ++ ["solarRadiation"]) ++ ["winddir"]) ++ ["humidity"]) ++
      ["temp", "heatIndex", "dewpt", "windChill", "windSpeed", "windGust",
       "pressure", "precipRate", "precipTotal", "elev"])
  exact ((((map_key_optEntry_sublist _ _ _ _ _).append
    (map_key_optEntry_sublist _ _ _ _ _)).append
    (map_key_optEntry_sublist _ _ _ _ _)).append
    (map_key_optEntry_sublist _ _ _ _ _)).append
    (map_key_metricCase_sublist _)

/-- C8 counterexample: descriptors are not all constructed with present
values — an observation whose obsTimeUtc is null still gets an obsTimeUtc
entry (with absent value) constructed in the sensors array of lines 134-164;
the filtering for the four top-level fields happens at publish time (line
194), not before construction. -/
theorem c8_counterexample :
    (sensorsOf (⟨none, some "5", none, none, none⟩ : Obs String)).any
      (fun s => s.value.isNone) = true := by decide

/-- C8 amended: every descriptor the publish loop processes (and hence every
published message's descriptor) has a present value, and metric-group
descriptors are filtered before construction; but the four top-level
descriptors are constructed unconditionally and only filtered at publish
time. -/
theorem c8_amended_processed_values_present (obs : Obs V) :
    (descriptors obs).all (fun s => s.value.isSome) = true ∧
    (Option.elim obs.metric true
      (fun m => (metricSensors m).all (fun s => s.value.isSome))) = true := by
  constructor
  · unfold descriptors
    simp [List.all_filter]
  · cases obs.metric with
    | none => rfl
    | some m => exact all_isSome_metricSensors m

/-- Witness for C2 at a concrete input: an observation with humidity 55, a
metric group whose only present field is temp 18.2 and whose pressure is
null yields no message on the pressure config or state topics. -/
theorem c2_witness :
    ((⟨some "T", none, none, some "55",
        some ⟨some "18.2", none, none, none, none, none, none, none, none, none⟩⟩ :
        Obs String).metric =
      some ⟨some "18.2", none, none, none, none, none, none, none, none, none⟩) ∧
    ((⟨some "18.2", none, none, none, none, none, none, none, none, none⟩ :
        Metric String).pressure = none) ∧
    (∀ p ∈ publishToMqtt "w" (fun v => v)
        (⟨some "T", none, none, some "55",
          some ⟨some "18.2", none, none, none, none, none, none, none, none, none⟩⟩ :
          Obs String),
       p.topic ≠ configTopicFor "w" "pressure" ∧
       p.topic ≠ stateTopicFor "w" "pressure") :=
  ⟨rfl, rfl,
   (c2_null_field_skipped_no_cross_coupling "w" (fun v => v)
     ⟨some "T", none, none, some "55",
       some ⟨some "18.2", none, none, none, none, none, none, none, none, none⟩⟩
     ⟨some "18.2", none, none, none, none, none, none, none, none, none⟩
     rfl rfl).2⟩

/-- Witness for C5 at a concrete input. -/
theorem c5_witness :
    List.Sublist
      ((descriptors (⟨some "T", none, none, some "55", none⟩ : Obs String)).map
        Sensor.key)
      ["obsTimeUtc", "solarRadiation", "winddir", "humidity", "temp", "heatIndex",
       "dewpt", "windChill", "windSpeed", "windGust", "pressure", "precipRate",
       "precipTotal", "elev"] ∧
    descriptors (⟨some "T", none, none, some "55", none⟩ : Obs String) =
      descriptors (⟨some "T", none, none, some "55", none⟩ : Obs String) :=
  c5_mapper_fixed_order_and_pure
    ⟨some "T", none, none, some "55", none⟩
    ⟨some "T", none, none, some "55", none⟩ rfl

/- ===================== Claims on startup and the scheduler ===================== -/

/-- C6 counterexample: an empty sensor-set name does not exit with code 4 —
the falsy-variable check of line 21 fires first (the empty string is falsy in
JS) and the process exits with code 2 instead, still before any broker or
network activity. -/
theorem c6_counterexample :
    startup ⟨some "", some "k", some "A", none, some "h", some "1883", none⟩ =
      StartupOutcome.exitCode 2 ∧
    startup ⟨some "", some "k", some "A", none, some "h", some "1883", none⟩ ≠
      StartupOutcome.exitCode 4 := by decide

/-- C6 amended: a sensor-set name containing one of the reserved characters
plus, hash or NUL is rejected with exit code 4 before the broker connection
is opened and before any fetch; an empty sensor-set name is caught even
earlier, by the missing-variable check, and exits with code 2 — likewise
before any network or broker activity. -/
theorem c6_amended_bad_name_rejected_preflight
    (sn ak si rv mh mp ee : Option String) (s : String)
    (hname : sn = some s)
    (hreq : jsTruthy ak = true ∧ jsTruthy si = true ∧ jsTruthy mh = true ∧
      jsTruthy mp = true) :
    (s.data.any isReservedTopicChar = true →
        startup ⟨sn, ak, si, rv, mh, mp, ee⟩ = StartupOutcome.exitCode 4) ∧
    (s = "" → startup ⟨sn, ak, si, rv, mh, mp, ee⟩ = StartupOutcome.exitCode 2) := by
  subst hname
  obtain ⟨hak, hsi, hmh, hmp⟩ := hreq
  constructor
  · intro hbad
    by_cases hempty : s = ""
    · subst hempty
      simp [List.any] at hbad
    · have htruthy : jsTruthy (some s) = true := by simp [jsTruthy, hempty]
      unfold startup requiredPresent
      simp [htruthy, hak, hsi, hmh, hmp, isValidMqttTopic, hbad]
  · intro hempty
    subst hempty
    unfold startup requiredPresent
    simp [jsTruthy]

/-- Witness for C6 (amended) at a concrete input: the name a+b contains a
reserved character and startup exits with code 4 before connecting. -/
theorem c6_witness :
    ((some "a+b" : Option String) = some "a+b") ∧
    (jsTruthy (some "k") = true ∧ jsTruthy (some "A") = true ∧
      jsTruthy (some "h") = true ∧ jsTruthy (some "1883") = true) ∧
    ((("a+b" : String).data.any isReservedTopicChar = true →
        startup ⟨some "a+b", some "k", some "A", none, some "h", some "1883", none⟩ =
          StartupOutcome.exitCode 4) ∧
     (("a+b" : String) = "" →
        startup ⟨some "a+b", some "k", some "A", none, some "h", some "1883", none⟩ =
          StartupOutcome.exitCode 2)) :=
  ⟨rfl, by decide,
   c6_amended_bad_name_rejected_preflight (some "a+b") (some "k") (some "A") none
     (some "h") (some "1883") none "a+b" rfl (by decide)⟩

/-- C7 counterexample: with the poll-interval variable absent, the
destructuring default makes EXEC_EVERY the string 1m, which parses to 60000
milliseconds, so the connect handler arms the repeating timer — it does not
run one-shot. -/
theorem c7_counterexample :
    execEveryOf ⟨some "w", some "k", some "A", none, some "h", some "1883", none⟩ =
      "1m" ∧
    connectHandler "1m" parseDurationModel = ConnectAction.timerMode 60000 ∧
    ConnectAction.timerMode 60000 ≠ ConnectAction.oneShotMode := by decide

/-- C7 amended: when the poll-interval variable is absent, the default 1m is
applied and the system runs in timer mode, a cycle immediately and then every
60000 ms; one-shot mode (exactly one cycle, exit 7 on its failure) is entered
exactly when the variable is present with an empty value. -/
theorem c7_amended_absent_interval_defaults_to_timer
    (sn ak si rv mh mp : Option String) (parse : String → Option Int) :
    execEveryOf ⟨sn, ak, si, rv, mh, mp, none⟩ = "1m" ∧
    connectHandler (execEveryOf ⟨sn, ak, si, rv, mh, mp, none⟩) parseDurationModel =
      ConnectAction.timerMode 60000 ∧
    connectHandler (execEveryOf ⟨sn, ak, si, rv, mh, mp, some ""⟩) parse =
      ConnectAction.oneShotMode := by
  refine ⟨rfl, ?_, rfl⟩
  show connectHandler "1m" parseDurationModel = ConnectAction.timerMode 60000
  decide

/-- C9 counterexample: the empty string fails duration parsing, yet when
EXEC_EVERY is set to it the process does not exit with code 3 — the falsy
test at line 50 routes it to one-shot mode, which performs a fetch. -/
theorem c9_counterexample :
    parseDurationModel "" = none ∧
    connectHandler "" parseDurationModel = ConnectAction.oneShotMode ∧
    ConnectAction.oneShotMode ≠ ConnectAction.exitBeforeFetch 3 := by decide

/-- C9 amended: for every present and non-empty poll-interval string that
fails duration parsing (or parses to less than 1 millisecond), the connect
handler exits with code 3 before any fetch; the empty string instead selects
one-shot mode and a fetch is performed (see the counterexample). -/
theorem c9_amended_invalid_interval_exit3
    (s : String) (parse : String → Option Int) (hne : s ≠ "")
    (hbad : parse s = none ∨ ∃ n, parse s = some n ∧ n < 1) :
    connectHandler s parse = ConnectAction.exitBeforeFetch 3 := by
  have hsne : (s != "") = true := bne_iff_ne.2 hne
  rcases hbad with h | ⟨n, hn, hlt⟩
  · simp [connectHandler, hsne, h]
  · simp [connectHandler, hsne, hn, hlt]

/-- Witness for C9 (amended) at a concrete input: the string zzz fails
duration parsing and the connect handler exits with code 3. -/
theorem c9_witness :
    (("zzz" : String) ≠ "") ∧
    (parseDurationModel "zzz" = none ∨
      ∃ n, parseDurationModel "zzz" = some n ∧ n < 1) ∧
    connectHandler "zzz" parseDurationModel = ConnectAction.exitBeforeFetch 3 :=
  ⟨by decide, Or.inl rfl,
   c9_amended_invalid_interval_exit3 "zzz" parseDurationModel (by decide) (Or.inl rfl)⟩

end WeatherSensor
